import Mathlib

/-!
Verification of the flight-aggregation service in `src/main.py`
(BesrourMS/api-flights).

The file shallowly embeds the two components of the program:

* the date-window calculator `get_dates`, built on a calendar-date model
  with the Gregorian leap-year rule (Python's `datetime` / `timedelta`
  arithmetic at day granularity), rendering via `strftime("%d")`,
  `strftime("%m")`, `strftime("%Y")`;
* the aggregation endpoint `get_djerba_flights`, parameterised by an
  oracle giving, for each (date-triple, movement) pair, the outcome of
  the corresponding upstream HTTP fetch (success with a JSON body, an
  HTTP error status, a network-level failure, or a malformed body that
  makes `response.json()` raise).

Upstream bodies are modelled by a small JSON value type.  Python
exception texts that depend on the interpreter (the `str(e)` part of
`f"Unexpected error: {str(e)}"`) are modelled by fixed descriptive
strings; no theorem below depends on their exact contents, only on the
prefixes that the source code itself writes.
-/

namespace ApiFlights

/-- Gregorian leap-year rule, as implemented by Python's `datetime`. -/
def isLeap (y : Nat) : Bool :=
  (y % 4 == 0 && y % 100 != 0) || y % 400 == 0

/-- Number of days in month `m` of year `y` (Gregorian calendar). -/
def daysInMonth (y m : Nat) : Nat :=
  if m = 2 then (if isLeap y then 29 else 28)
  else if m = 4 ∨ m = 6 ∨ m = 9 ∨ m = 11 then 30
  else 31

/-- A calendar date, the day-granularity content of a Python `datetime`. -/
structure Date where
  year : Nat
  month : Nat
  day : Nat
deriving DecidableEq, Repr

/-- A date is a real calendar date: month in 1..12, day in 1..length of month. -/
def Date.valid : Date → Prop
  | ⟨y, m, d⟩ => 1 ≤ m ∧ m ≤ 12 ∧ 1 ≤ d ∧ d ≤ daysInMonth y m

instance (t : Date) : Decidable t.valid :=
  match t with
  | ⟨y, m, d⟩ =>
    inferInstanceAs (Decidable (1 ≤ m ∧ m ≤ 12 ∧ 1 ≤ d ∧ d ≤ daysInMonth y m))

/-- Years for which the window and its `%Y` rendering are unproblematic:
`%Y` gives exactly four digits and the previous/next years stay in range. -/
def Date.inRange (t : Date) : Prop :=
  1001 ≤ t.year ∧ t.year ≤ 9998

instance (t : Date) : Decidable t.inRange := by
  unfold Date.inRange; infer_instance

/-- The calendar date one day after `t`: `today + timedelta(days=1)`. -/
def nextDate : Date → Date
  | ⟨y, m, d⟩ =>
    if d < daysInMonth y m then ⟨y, m, d + 1⟩
    else if m < 12 then ⟨y, m + 1, 1⟩
    else ⟨y + 1, 1, 1⟩

/-- The calendar date one day before `t`: `today - timedelta(days=1)`. -/
def prevDate : Date → Date
  | ⟨y, m, d⟩ =>
    if 1 < d then ⟨y, m, d - 1⟩
    else if 1 < m then ⟨y, m - 1, daysInMonth y (m - 1)⟩
    else ⟨y - 1, 12, 31⟩

/-- The character for a decimal digit `n < 10`. -/
def digit (n : Nat) : Char := Char.ofNat (48 + n)

/-- Rendering of `strftime("%d")` / `strftime("%m")`: a zero-padded
two-digit decimal string (faithful for arguments below 100). -/
def fmt2 (n : Nat) : String := ⟨[digit (n / 10), digit (n % 10)]⟩

/-- Rendering of `strftime("%Y")`: a four-digit decimal year string
(faithful for years between 1000 and 9999). -/
def fmt4 (n : Nat) : String :=
  ⟨[digit (n / 1000), digit (n / 100 % 10), digit (n / 10 % 10), digit (n % 10)]⟩

/-- Embedding of `get_dates` from `src/main.py`: the flat nine-element list
`[day, month, year]` for yesterday, today and tomorrow, each component
rendered by `strftime`.  The reference instant `now` is a parameter, as
the specification requires for testability. -/
def get_dates (now : Date) : List String :=
  [fmt2 (prevDate now).day, fmt2 (prevDate now).month, fmt4 (prevDate now).year,
   fmt2 now.day, fmt2 now.month, fmt4 now.year,
   fmt2 (nextDate now).day, fmt2 (nextDate now).month, fmt4 (nextDate now).year]

/-- The dictionary key `f"{day}-{month}-{year}"` built by `get_djerba_flights`
for one window date (`current_date` in the source). -/
def fmtDate (t : Date) : String :=
  fmt2 t.day ++ "-" ++ fmt2 t.month ++ "-" ++ fmt4 t.year

/-- Embedding of Python's `str.strip()`: remove leading and trailing
whitespace characters.  (Python strips all Unicode whitespace; the ASCII
whitespace handled here covers the data and claims at issue.) -/
def strip (s : String) : String :=
  ⟨((s.data.dropWhile Char.isWhitespace).reverse.dropWhile Char.isWhitespace).reverse⟩

/-- A JSON value, the possible result of `response.json()`. -/
inductive Json where
  | null
  | bool (b : Bool)
  | num (n : Int)
  | str (s : String)
  | arr (items : List Json)
  | obj (fields : List (String × Json))

/-- Response model `FlightDetails` from `src/main.py`. -/
structure FlightDetails where
  destination : String
  time : String
  company : String
  fnumber : String
  comment : Option String
deriving DecidableEq, Repr

/-- Response model `DateFlights` from `src/main.py`: the two per-date
sequences, both empty by default. -/
structure DateFlights where
  departures : List FlightDetails := []
  arrivals : List FlightDetails := []
deriving DecidableEq, Repr

/-- The `MovementType(str, Enum)` from `src/main.py`, with values
`"D"` / `"A"`. -/
inductive MovementType where
  | departures
  | arrivals
deriving DecidableEq, Repr

/-- The string value of the enum member (`"D"` or `"A"`). -/
def MovementType.code : MovementType → String
  | .departures => "D"
  | .arrivals => "A"

/-- The ternary `"departures" if movement == "D" else "arrivals"` used when
recording an error: the str-enum member compares equal to its value. -/
def MovementType.label (mv : MovementType) : String :=
  if mv.code = "D" then "departures" else "arrivals"

/-- One entry of the `api_errors` list: a dict with keys
`date`, `movement`, `error`. -/
structure ApiError where
  date : String
  movement : String
  error : String
deriving DecidableEq, Repr

/-- Python dict key lookup on the fields of a JSON object. -/
def lookupField (fields : List (String × Json)) (k : String) : Option Json :=
  match fields with
  | [] => none
  | (k2, v) :: rest => if k2 = k then some v else lookupField rest k

/-- Subscripting `item[k]`: returns the value, or the description of the
exception Python raises (`KeyError` for a missing key, `TypeError` when
`item` is not a dict; the modelled descriptions stand for `str(e)`, whose
exact text is interpreter-dependent — no theorem relies on it). -/
def getItem (item : Json) (k : String) : Except String Json :=
  match item with
  | .obj fields =>
    match lookupField fields k with
    | some v => .ok v
    | none => .error ("KeyError: " ++ k)
  | _ => .error "TypeError: item is not subscriptable"

/-- The call `item["compagnie"].strip()`: succeeds on a JSON string, raises
`AttributeError` (modelled as an error description) otherwise. -/
def stripValue : Json → Except String String
  | .str s => .ok (strip s)
  | _ => .error "AttributeError: object has no attribute strip"

/-- Pydantic validation of a required `str` field: only a JSON string is
accepted; anything else raises a `ValidationError`. -/
def asStr (field : String) : Json → Except String String
  | .str s => .ok s
  | _ => .error ("ValidationError: " ++ field ++ " must be a string")

/-- Pydantic validation of the `Optional[str]` field `comment`. -/
def asOptStr : Json → Except String (Option String)
  | .null => .ok none
  | .str s => .ok (some s)
  | _ => .error "ValidationError: comment must be a string or null"

/-- Construction of one `FlightDetails` from one record of the upstream
list, following the source's field mapping and Python's evaluation order:
`direction`, `heure`, `compagnie` (with `.strip()`), `numVol`,
`commentaire`, then pydantic validation.  Any failure is the exception
caught by the aggregator's generic `except Exception` branch. -/
def mapRecord (item : Json) : Except String FlightDetails :=
  match getItem item "direction" with
  | .error e => .error e
  | .ok dirJ =>
    match getItem item "heure" with
    | .error e => .error e
    | .ok heureJ =>
      match getItem item "compagnie" with
      | .error e => .error e
      | .ok compJ =>
        match stripValue compJ with
        | .error e => .error e
        | .ok company =>
          match getItem item "numVol" with
          | .error e => .error e
          | .ok numJ =>
            match getItem item "commentaire" with
            | .error e => .error e
            | .ok commJ =>
              match asStr "destination" dirJ, asStr "time" heureJ,
                  asStr "fnumber" numJ, asOptStr commJ with
              | .ok destination, .ok time, .ok fnumber, .ok comment =>
                .ok ⟨destination, time, company, fnumber, comment⟩
              | .error e, _, _, _ => .error e
              | _, .error e, _, _ => .error e
              | _, _, .error e, _ => .error e
              | _, _, _, .error e => .error e

/-- The list comprehension building `flight_details`: all-or-nothing, the
first failing record aborts the whole comprehension. -/
def mapRecords (items : List Json) : Except String (List FlightDetails) :=
  match items with
  | [] => .ok []
  | item :: rest =>
    match mapRecord item with
    | .error e => .error e
    | .ok fd =>
      match mapRecords rest with
      | .error e => .error e
      | .ok fds => .ok (fd :: fds)

/-- The outcome of one upstream `client.get(url)` call, from the point of
view of the `try` block in `src/main.py`. -/
inductive FetchOutcome where
  | success (body : Json)
  | malformedBody (desc : String)
  | httpError (status : Nat) (text : String)
  | networkError (desc : String)

/-- A `(day, month, year)` string triple taken from the `dates` list. -/
def DateTriple := String × String × String

/-- The key `current_date = f"{day}-{month}-{year}"`. -/
def currentDateStr (t : DateTriple) : String :=
  t.1 ++ "-" ++ t.2.1 ++ "-" ++ t.2.2

/-- The upstream URL built for one request in `src/main.py`. -/
def buildUrl (port : String) (mv : MovementType) (t : DateTriple) : String :=
  "https://www.oaca.nat.tn/vols/api/flight/filter" ++
  "?frmmvtCod=" ++ mv.code ++ "&frmaeropVil=-1" ++ "&frmnumVol=" ++
  "&frmairport=" ++ port ++ "&frmday=" ++ t.1 ++ "&frmmonth=" ++ t.2.1 ++
  "&frmacty=" ++ t.2.2 ++ "&frmhour=0"

/-- An oracle giving, for each (date triple, movement) pair, the outcome
of its upstream fetch. -/
def Fetch := DateTriple → MovementType → FetchOutcome

/-- Processing of one fetched outcome inside the `try`/`except` structure
of `src/main.py`: either the list of `FlightDetails` to extend the bucket
with, or the `api_errors` entry that the matching `except` branch (or the
`isinstance` check) appends. -/
def processPair (currentDate : String) (mv : MovementType) (oc : FetchOutcome) :
    Except ApiError (List FlightDetails) :=
  match oc with
  | .httpError status text =>
    .error ⟨currentDate, mv.label, "API error " ++ toString status ++ ": " ++ text⟩
  | .networkError desc =>
    .error ⟨currentDate, mv.label, "Network error: " ++ desc⟩
  | .malformedBody desc =>
    .error ⟨currentDate, mv.label, "Unexpected error: " ++ desc⟩
  | .success body =>
    match body with
    | .arr items =>
      match mapRecords items with
      | .ok fds => .ok fds
      | .error desc =>
        .error ⟨currentDate, mv.label, "Unexpected error: " ++ desc⟩
    | _ => .error ⟨currentDate, mv.label, "Unexpected response format"⟩

/-- The request-scoped mutable state of `get_djerba_flights`:
`flights_by_date` (an insertion-ordered dict) and `api_errors`. -/
structure AggState where
  flights : List (String × DateFlights)
  errors : List ApiError

/-- Membership test `current_date in flights_by_date`. -/
def containsKey (l : List (String × DateFlights)) (k : String) : Bool :=
  match l with
  | [] => false
  | (k2, _) :: rest => k2 = k || containsKey rest k

/-- The `if current_date not in flights_by_date:` initialisation with a
fresh `DateFlights()`. -/
def initDate (st : AggState) (k : String) : AggState :=
  if containsKey st.flights k then st
  else { st with flights := st.flights ++ [(k, {})] }

/-- `flights_by_date[current_date].departures.extend(...)` (resp.
`arrivals`), grouping by movement type. -/
def DateFlights.extendWith (df : DateFlights) (mv : MovementType)
    (fds : List FlightDetails) : DateFlights :=
  match mv with
  | .departures => { df with departures := df.departures ++ fds }
  | .arrivals => { df with arrivals := df.arrivals ++ fds }

/-- In-place mutation of the dict entry at key `k`. -/
def extendBucket (l : List (String × DateFlights)) (k : String)
    (mv : MovementType) (fds : List FlightDetails) : List (String × DateFlights) :=
  match l with
  | [] => []
  | (k2, df) :: rest =>
    if k2 = k then (k2, df.extendWith mv fds) :: rest
    else (k2, df) :: extendBucket rest k mv fds

/-- One iteration of the inner `for movement in movements:` loop body. -/
def processMovement (fetch : Fetch) (t : DateTriple) (currentDate : String)
    (mv : MovementType) (st : AggState) : AggState :=
  match processPair currentDate mv (fetch t mv) with
  | .ok fds => { st with flights := extendBucket st.flights currentDate mv fds }
  | .error e => { st with errors := st.errors ++ [e] }

/-- One iteration of the outer loop: initialise the date entry, then
process both movements, departures first. -/
def processTriple (fetch : Fetch) (st : AggState) (t : DateTriple) : AggState :=
  let currentDate := currentDateStr t
  let st1 := initDate st currentDate
  let st2 := processMovement fetch t currentDate .departures st1
  processMovement fetch t currentDate .arrivals st2

/-- `for i in range(0, len(dates), 3):` — regroup the flat `dates` list
into `(day, month, year)` triples. -/
def chunk3 : List String → List DateTriple
  | d :: m :: y :: rest => ((d, m, y) : DateTriple) :: chunk3 rest
  | _ => []

/-- The whole double loop of `get_djerba_flights`, starting from the empty
dict and empty error list. -/
def aggregate (fetch : Fetch) (triples : List DateTriple) : AggState :=
  triples.foldl (processTriple fetch) ⟨[], []⟩

/-- The two possible HTTP responses of the endpoint: `200 OK` with the
date-to-DateFlights mapping, or the `HTTPException` with status 500 and
detail `{message, errors}`. -/
inductive Response where
  | ok (flights : List (String × DateFlights))
  | internalError (message : String) (errors : List ApiError)
deriving DecidableEq, Repr

/-- Embedding of the endpoint `get_djerba_flights` from `src/main.py`,
parameterised by the fetch oracle and the reference instant. -/
def get_djerba_flights (fetch : Fetch) (now : Date) : Response :=
  let st := aggregate fetch (chunk3 (get_dates now))
  if st.flights.isEmpty && !st.errors.isEmpty then
    .internalError "Unable to fetch flights" st.errors
  else
    .ok st.flights

/-- The `(day, month, year)` triple of strings a window date contributes
to the `dates` list. -/
def tripleOf (t : Date) : DateTriple :=
  ((fmt2 t.day, fmt2 t.month, fmt4 t.year) : DateTriple)

/-- The flights a single processed pair contributes (empty on failure). -/
def fetchedFlights (currentDate : String) (mv : MovementType)
    (oc : FetchOutcome) : List FlightDetails :=
  match processPair currentDate mv oc with
  | .ok fds => fds
  | .error _ => []

/-- The error entries a single processed pair contributes (at most one). -/
def fetchedError (currentDate : String) (mv : MovementType)
    (oc : FetchOutcome) : List ApiError :=
  match processPair currentDate mv oc with
  | .ok _ => []
  | .error e => [e]

/-- The `DateFlights` entry a window date ends up with: exactly the data
of its own two fetches. -/
def entryFor (fetch : Fetch) (t : DateTriple) : DateFlights :=
  { departures := fetchedFlights (currentDateStr t) .departures (fetch t .departures),
    arrivals := fetchedFlights (currentDateStr t) .arrivals (fetch t .arrivals) }

/-- The error entries a window date ends up contributing, in order. -/
def errsFor (fetch : Fetch) (t : DateTriple) : List ApiError :=
  fetchedError (currentDateStr t) .departures (fetch t .departures) ++
  fetchedError (currentDateStr t) .arrivals (fetch t .arrivals)

/-- Dict lookup in the result mapping. -/
def lookupDate (l : List (String × DateFlights)) (k : String) : Option DateFlights :=
  match l with
  | [] => none
  | (k2, df) :: rest => if k2 = k then some df else lookupDate rest k

instance : DecidableEq DateTriple :=
  inferInstanceAs (DecidableEq (String × String × String))

/-- The mocked upstream record used by the specification's example. -/
def mockRec : Json :=
  .obj [("direction", .str "TUN"), ("heure", .str "14:30"),
        ("compagnie", .str "Nouvelair"), ("numVol", .str "BJ101"),
        ("commentaire", .null)]

/-- A reference instant used by concrete witnesses: 15 June 2024. -/
def sampleNow : Date := ⟨2024, 6, 15⟩

/-- An oracle on which every upstream fetch fails at the network level. -/
def netFailOracle : Fetch := fun _ _ => .networkError "Connection refused"

/-- An oracle on which exactly one pair (today's departures) succeeds with
one record and the five other fetches fail at the network level. -/
def partialOracle : Fetch := fun t mv =>
  match mv with
  | .departures =>
    if t = tripleOf sampleNow then .success (.arr [mockRec])
    else .networkError "no route to host"
  | .arrivals => .networkError "no route to host"

/-- The bucket of a `DateFlights` selected by movement type. -/
def DateFlights.bucket (df : DateFlights) : MovementType → List FlightDetails
  | .departures => df.departures
  | .arrivals => df.arrivals

/-- Syntactic shape `DD-MM-YYYY`: digits everywhere except dashes at
positions 2 and 5, ten characters in all. -/
def isDDMMYYYY (s : String) : Bool :=
  (s.data.map Char.isDigit =
    [true, true, false, true, true, false, true, true, true, true]) &&
  s.data.get? 2 = some '-' && s.data.get? 5 = some '-'

/-- Reading a digit string back as a number (most significant first). -/
def decodeDigits (s : String) : Nat :=
  s.data.foldl (fun acc c => acc * 10 + (c.toNat - 48)) 0

/-- JSON encoding of an optional comment (`null` or a string). -/
def optJson : Option String → Json
  | none => .null
  | some s => .str s

/-- An oracle returning a JSON object (valid JSON, not a list) for today's
departures and empty lists everywhere else. -/
def objOracle : Fetch := fun t mv =>
  match mv with
  | .departures =>
    if t = tripleOf sampleNow then .success (.obj []) else .success (.arr [])
  | .arrivals => .success (.arr [])

/-- The predicate identifying the errors recorded for one (date, movement)
pair. -/
def errMatch (cd lbl : String) (x : ApiError) : Bool :=
  x.date = cd && x.movement = lbl

/-- An upstream list whose single record lacks the `direction` field. -/
def badRec : Json := .obj [("heure", .str "10:00")]

/-- An oracle whose today-departures body is a list with one unmappable
record, and empty lists everywhere else. -/
def badOracle : Fetch := fun t mv =>
  match mv with
  | .departures =>
    if t = tripleOf sampleNow then .success (.arr [badRec])
    else .success (.arr [])
  | .arrivals => .success (.arr [])

lemma daysInMonth_le (y m : Nat) : daysInMonth y m ≤ 31 := by
  unfold daysInMonth
  split
  · split <;> omega
  · split <;> omega

lemma daysInMonth_pos (y m : Nat) : 28 ≤ daysInMonth y m := by
  unfold daysInMonth
  split
  · split <;> omega
  · split <;> omega

lemma daysInMonth_dec (y : Nat) : daysInMonth y 12 = 31 := by
  unfold daysInMonth
  norm_num

lemma nextDate_valid : ∀ {t : Date}, t.valid → (nextDate t).valid := by
  rintro ⟨y, m, d⟩ ⟨h1, h2, h3, h4⟩
  have p1 := daysInMonth_pos y (m + 1)
  have p2 := daysInMonth_pos (y + 1) 1
  simp only [nextDate]
  split
  · simp only [Date.valid]
    omega
  · split
    · simp only [Date.valid]
      omega
    · simp only [Date.valid]
      omega

lemma prevDate_valid : ∀ {t : Date}, t.valid → 1 ≤ t.year → (prevDate t).valid := by
  rintro ⟨y, m, d⟩ ⟨h1, h2, h3, h4⟩ hy
  replace hy : 1 ≤ y := hy
  have p1 := daysInMonth_pos y (m - 1)
  have p2 := daysInMonth_dec (y - 1)
  simp only [prevDate]
  split
  · simp only [Date.valid]
    omega
  · split
    · simp only [Date.valid]
      omega
    · simp only [Date.valid]
      omega

lemma nextDate_prevDate : ∀ {t : Date}, t.valid → 1 ≤ t.year →
    nextDate (prevDate t) = t := by
  rintro ⟨y, m, d⟩ ⟨h1, h2, h3, h4⟩ hy
  replace hy : 1 ≤ y := hy
  simp only [prevDate]
  split
  · simp only [nextDate]
    rw [if_pos (by omega)]
    simp only [Date.mk.injEq, true_and, and_true]
    omega
  · split
    · have p1 := daysInMonth_pos y (m - 1)
      simp only [nextDate]
      rw [if_neg (by omega), if_pos (by omega)]
      simp only [Date.mk.injEq, true_and, and_true]
      omega
    · have p2 := daysInMonth_dec (y - 1)
      simp only [nextDate]
      rw [if_neg (by omega), if_neg (by omega)]
      simp only [Date.mk.injEq, true_and, and_true]
      omega

lemma prevDate_nextDate : ∀ {t : Date}, t.valid → prevDate (nextDate t) = t := by
  rintro ⟨y, m, d⟩ ⟨h1, h2, h3, h4⟩
  simp only [nextDate]
  split
  · simp only [prevDate]
    rw [if_pos (by omega)]
    simp only [Date.mk.injEq, true_and, and_true]
    omega
  · split
    · simp only [prevDate]
      rw [if_neg (by omega), if_pos (by omega)]
      simp only [Date.mk.injEq, true_and, and_true, Nat.add_sub_cancel]
      omega
    · have hm : m = 12 := by omega
      subst hm
      have p2 := daysInMonth_dec y
      simp only [prevDate]
      rw [if_neg (by omega), if_neg (by omega)]
      simp only [Date.mk.injEq, true_and, and_true, Nat.add_sub_cancel]
      omega

lemma prevDate_ne : ∀ {t : Date}, 1 ≤ t.year → prevDate t ≠ t := by
  rintro ⟨y, m, d⟩ hy
  replace hy : 1 ≤ y := hy
  simp only [prevDate]
  split
  · simp only [ne_eq, Date.mk.injEq]
    omega
  · split
    · simp only [ne_eq, Date.mk.injEq]
      omega
    · simp only [ne_eq, Date.mk.injEq]
      omega

lemma nextDate_ne (t : Date) : nextDate t ≠ t := by
  obtain ⟨y, m, d⟩ := t
  simp only [nextDate]
  split
  · simp only [ne_eq, Date.mk.injEq]
    omega
  · split
    · simp only [ne_eq, Date.mk.injEq]
      omega
    · simp only [ne_eq, Date.mk.injEq]
      omega

lemma prevDate_ne_nextDate : ∀ {t : Date}, t.valid → 1 ≤ t.year →
    prevDate t ≠ nextDate t := by
  rintro ⟨y, m, d⟩ ⟨h1, h2, h3, h4⟩ hy
  replace hy : 1 ≤ y := hy
  have hpos := daysInMonth_pos y m
  simp only [prevDate, nextDate]
  by_cases hd : 1 < d
  · rw [if_pos hd]
    by_cases hlt : d < daysInMonth y m
    · rw [if_pos hlt]
      simp only [ne_eq, Date.mk.injEq]
      omega
    · rw [if_neg hlt]
      by_cases hm : m < 12
      · rw [if_pos hm]
        simp only [ne_eq, Date.mk.injEq]
        omega
      · rw [if_neg hm]
        simp only [ne_eq, Date.mk.injEq]
        omega
  · rw [if_neg hd]
    have hrhs : d < daysInMonth y m := by omega
    by_cases hm : 1 < m
    · rw [if_pos hm, if_pos hrhs]
      simp only [ne_eq, Date.mk.injEq]
      omega
    · rw [if_neg hm, if_pos hrhs]
      simp only [ne_eq, Date.mk.injEq]
      omega

lemma digit_inj : ∀ a : Nat, a < 10 → ∀ b : Nat, b < 10 →
    digit a = digit b → a = b := by
  decide

lemma fmtDate_inj : ∀ t1 t2 : Date, t1.day < 100 → t1.month < 100 →
    t1.year < 10000 → t2.day < 100 → t2.month < 100 → t2.year < 10000 →
    fmtDate t1 = fmtDate t2 → t1 = t2 := by
  rintro ⟨y1, m1, d1⟩ ⟨y2, m2, d2⟩ hd1 hm1 hy1 hd2 hm2 hy2 h
  replace hd1 : d1 < 100 := hd1
  replace hm1 : m1 < 100 := hm1
  replace hy1 : y1 < 10000 := hy1
  replace hd2 : d2 < 100 := hd2
  replace hm2 : m2 < 100 := hm2
  replace hy2 : y2 < 10000 := hy2
  have hdata :
      [digit (d1 / 10), digit (d1 % 10), '-', digit (m1 / 10), digit (m1 % 10), '-',
       digit (y1 / 1000), digit (y1 / 100 % 10), digit (y1 / 10 % 10), digit (y1 % 10)] =
      [digit (d2 / 10), digit (d2 % 10), '-', digit (m2 / 10), digit (m2 % 10), '-',
       digit (y2 / 1000), digit (y2 / 100 % 10), digit (y2 / 10 % 10), digit (y2 % 10)] :=
    congrArg String.data h
  simp only [List.cons.injEq, and_true] at hdata
  obtain ⟨e1, e2, -, e3, e4, -, e5, e6, e7, e8⟩ := hdata
  have q1 := digit_inj _ (by omega) _ (by omega) e1
  have q2 := digit_inj _ (by omega) _ (by omega) e2
  have q3 := digit_inj _ (by omega) _ (by omega) e3
  have q4 := digit_inj _ (by omega) _ (by omega) e4
  have q5 := digit_inj _ (by omega) _ (by omega) e5
  have q6 := digit_inj _ (by omega) _ (by omega) e6
  have q7 := digit_inj _ (by omega) _ (by omega) e7
  have q8 := digit_inj _ (by omega) _ (by omega) e8
  simp only [Date.mk.injEq]
  refine ⟨by omega, by omega, by omega⟩

lemma prevDate_year_bound (t : Date) :
    t.year - 1 ≤ (prevDate t).year ∧ (prevDate t).year ≤ t.year := by
  obtain ⟨y, m, d⟩ := t
  simp only [prevDate]
  split
  · simp
  · split <;> simp

lemma nextDate_year_bound (t : Date) :
    t.year ≤ (nextDate t).year ∧ (nextDate t).year ≤ t.year + 1 := by
  obtain ⟨y, m, d⟩ := t
  simp only [nextDate]
  split
  · simp
  · split <;> simp

lemma valid_day_lt {t : Date} (h : t.valid) : t.day < 100 := by
  obtain ⟨y, m, d⟩ := t
  obtain ⟨h1, h2, h3, h4⟩ := h
  have := daysInMonth_le y m
  simp only
  omega

lemma valid_month_lt {t : Date} (h : t.valid) : t.month < 100 := by
  obtain ⟨y, m, d⟩ := t
  obtain ⟨h1, h2, h3, h4⟩ := h
  simp only
  omega

/-- The three window keys are pairwise distinct strings, for any valid
in-range reference date. -/
lemma window_keys_distinct {t : Date} (hv : t.valid) (hr : t.inRange) :
    fmtDate (prevDate t) ≠ fmtDate t ∧ fmtDate t ≠ fmtDate (nextDate t) ∧
    fmtDate (prevDate t) ≠ fmtDate (nextDate t) := by
  obtain ⟨hy1, hy2⟩ := hr
  have hpv : (prevDate t).valid := prevDate_valid hv (by omega)
  have hnv : (nextDate t).valid := nextDate_valid hv
  have hpy := prevDate_year_bound t
  have hny := nextDate_year_bound t
  refine ⟨?_, ?_, ?_⟩
  · intro h
    exact prevDate_ne (t := t) (by omega)
      (fmtDate_inj _ _ (valid_day_lt hpv) (valid_month_lt hpv) (by omega)
        (valid_day_lt hv) (valid_month_lt hv) (by omega) h)
  · intro h
    exact nextDate_ne t
      (fmtDate_inj _ _ (valid_day_lt hnv) (valid_month_lt hnv) (by omega)
        (valid_day_lt hv) (valid_month_lt hv) (by omega) h.symm)
  · intro h
    exact prevDate_ne_nextDate hv (by omega)
      (fmtDate_inj _ _ (valid_day_lt hpv) (valid_month_lt hpv) (by omega)
        (valid_day_lt hnv) (valid_month_lt hnv) (by omega) h)

lemma extendBucket_not_contains (l : List (String × DateFlights)) (k : String)
    (mv : MovementType) (fds : List FlightDetails)
    (h : containsKey l k = false) : extendBucket l k mv fds = l := by
  induction l with
  | nil => rfl
  | cons p rest ih =>
    obtain ⟨k2, df⟩ := p
    simp only [containsKey, Bool.or_eq_false_iff] at h
    obtain ⟨hk, hrest⟩ := h
    simp only [extendBucket]
    rw [if_neg (by simpa using hk)]
    rw [ih hrest]

lemma extendBucket_append_last (l : List (String × DateFlights)) (k : String)
    (mv : MovementType) (fds : List FlightDetails) (df : DateFlights)
    (h : containsKey l k = false) :
    extendBucket (l ++ [(k, df)]) k mv fds = l ++ [(k, df.extendWith mv fds)] := by
  induction l with
  | nil =>
    simp [extendBucket]
  | cons p rest ih =>
    obtain ⟨k2, df2⟩ := p
    simp only [containsKey, Bool.or_eq_false_iff] at h
    obtain ⟨hk, hrest⟩ := h
    simp only [List.cons_append, extendBucket, List.append_eq]
    rw [if_neg (by simpa using hk)]
    rw [ih hrest]

lemma initDate_not_contains (st : AggState) (k : String)
    (h : containsKey st.flights k = false) :
    initDate st k = ⟨st.flights ++ [(k, (⟨[], []⟩ : DateFlights))], st.errors⟩ := by
  unfold initDate
  rw [if_neg (by simp [h])]

lemma processMovement_ok (fetch : Fetch) (t : DateTriple) (cd : String)
    (mv : MovementType) (st : AggState) (fds : List FlightDetails)
    (h : processPair cd mv (fetch t mv) = .ok fds) :
    processMovement fetch t cd mv st = ⟨extendBucket st.flights cd mv fds, st.errors⟩ := by
  unfold processMovement
  rw [h]

lemma processMovement_err (fetch : Fetch) (t : DateTriple) (cd : String)
    (mv : MovementType) (st : AggState) (e : ApiError)
    (h : processPair cd mv (fetch t mv) = .error e) :
    processMovement fetch t cd mv st = ⟨st.flights, st.errors ++ [e]⟩ := by
  unfold processMovement
  rw [h]

/-- Processing one window date whose key is not yet in the dict appends
exactly one entry — determined solely by that date's own two fetches — and
appends that date's error entries, in order. -/
lemma processTriple_fresh (fetch : Fetch) (st : AggState) (t : DateTriple)
    (h : containsKey st.flights (currentDateStr t) = false) :
    processTriple fetch st t =
      ⟨st.flights ++ [(currentDateStr t, entryFor fetch t)],
       st.errors ++ errsFor fetch t⟩ := by
  show processMovement fetch t (currentDateStr t) .arrivals
    (processMovement fetch t (currentDateStr t) .departures
      (initDate st (currentDateStr t))) = _
  rw [initDate_not_contains st _ h]
  cases hdep : processPair (currentDateStr t) .departures (fetch t .departures) with
  | error e =>
    rw [processMovement_err fetch t _ .departures _ e hdep]
    cases harr : processPair (currentDateStr t) .arrivals (fetch t .arrivals) with
    | error e2 =>
      rw [processMovement_err fetch t _ .arrivals _ e2 harr]
      simp only [AggState.mk.injEq]
      constructor
      · have : entryFor fetch t = {} := by
          unfold entryFor fetchedFlights
          rw [hdep, harr]
        rw [this]
      · unfold errsFor fetchedError
        rw [hdep, harr]
        simp
    | ok fds2 =>
      rw [processMovement_ok fetch t _ .arrivals _ fds2 harr]
      simp only [AggState.mk.injEq]
      constructor
      · rw [extendBucket_append_last _ _ _ _ _ h]
        have : entryFor fetch t = DateFlights.extendWith ⟨[], []⟩ .arrivals fds2 := by
          unfold entryFor fetchedFlights DateFlights.extendWith
          rw [hdep, harr]
          rfl
        rw [this]
      · unfold errsFor fetchedError
        rw [hdep, harr]
        simp
  | ok fds =>
    rw [processMovement_ok fetch t _ .departures _ fds hdep]
    rw [extendBucket_append_last _ _ _ _ _ h]
    cases harr : processPair (currentDateStr t) .arrivals (fetch t .arrivals) with
    | error e2 =>
      rw [processMovement_err fetch t _ .arrivals _ e2 harr]
      simp only [AggState.mk.injEq]
      constructor
      · have : entryFor fetch t = DateFlights.extendWith {} .departures fds := by
          unfold entryFor fetchedFlights DateFlights.extendWith
          rw [hdep, harr]
          rfl
        rw [this]
      · unfold errsFor fetchedError
        rw [hdep, harr]
        simp
    | ok fds2 =>
      rw [processMovement_ok fetch t _ .arrivals _ fds2 harr]
      rw [extendBucket_append_last _ _ _ _ _ h]
      simp only [AggState.mk.injEq]
      constructor
      · have : entryFor fetch t =
            (DateFlights.extendWith {} .departures fds).extendWith .arrivals fds2 := by
          unfold entryFor fetchedFlights DateFlights.extendWith
          rw [hdep, harr]
          rfl
        rw [this]
      · unfold errsFor fetchedError
        rw [hdep, harr]
        simp

lemma containsKey_singleton (k1 k : String) (e : DateFlights)
    (h : k1 ≠ k) : containsKey [(k1, e)] k = false := by
  simp [containsKey, h]

lemma containsKey_pair (k1 k2 k : String) (e1 e2 : DateFlights)
    (h1 : k1 ≠ k) (h2 : k2 ≠ k) :
    containsKey [(k1, e1), (k2, e2)] k = false := by
  simp [containsKey, h1, h2]

/-- Full characterisation of the double loop on a three-date window with
pairwise distinct keys: the dict holds exactly the three entries in window
order, each entry built only from its own date's two fetches, and the
error list is the concatenation of the per-date error entries in
processing order. -/
lemma aggregate_three (fetch : Fetch) (t1 t2 t3 : DateTriple)
    (h12 : currentDateStr t1 ≠ currentDateStr t2)
    (h13 : currentDateStr t1 ≠ currentDateStr t3)
    (h23 : currentDateStr t2 ≠ currentDateStr t3) :
    aggregate fetch [t1, t2, t3] =
      ⟨[(currentDateStr t1, entryFor fetch t1),
        (currentDateStr t2, entryFor fetch t2),
        (currentDateStr t3, entryFor fetch t3)],
       errsFor fetch t1 ++ (errsFor fetch t2 ++ errsFor fetch t3)⟩ := by
  show processTriple fetch (processTriple fetch (processTriple fetch ⟨[], []⟩ t1) t2) t3 = _
  rw [processTriple_fresh fetch ⟨[], []⟩ t1 rfl]
  simp only [List.nil_append]
  rw [processTriple_fresh fetch _ t2 (containsKey_singleton _ _ _ h12)]
  simp only [List.cons_append, List.nil_append]
  rw [processTriple_fresh fetch _ t3
    (containsKey_pair _ _ _ _ _ h13 h23)]
  simp only [List.cons_append, List.nil_append, List.append_assoc]

lemma chunk3_get_dates (now : Date) :
    chunk3 (get_dates now) =
      [tripleOf (prevDate now), tripleOf now, tripleOf (nextDate now)] := rfl

lemma currentDateStr_tripleOf (t : Date) :
    currentDateStr (tripleOf t) = fmtDate t := rfl

/-- The aggregation state reached by `get_djerba_flights` for a valid
in-range reference date: three entries keyed by the formatted window
dates, each determined by its own fetches, and all per-pair errors
collected in order. -/
lemma aggregate_window (fetch : Fetch) {now : Date}
    (hv : now.valid) (hr : now.inRange) :
    aggregate fetch (chunk3 (get_dates now)) =
      ⟨[(fmtDate (prevDate now), entryFor fetch (tripleOf (prevDate now))),
        (fmtDate now, entryFor fetch (tripleOf now)),
        (fmtDate (nextDate now), entryFor fetch (tripleOf (nextDate now)))],
       errsFor fetch (tripleOf (prevDate now)) ++
         (errsFor fetch (tripleOf now) ++ errsFor fetch (tripleOf (nextDate now)))⟩ := by
  obtain ⟨hne1, hne2, hne3⟩ := window_keys_distinct hv hr
  rw [chunk3_get_dates]
  rw [aggregate_three fetch _ _ _ ?h12 ?h13 ?h23]
  · simp only [currentDateStr_tripleOf]
  case h12 => simpa only [currentDateStr_tripleOf] using hne1
  case h13 => simpa only [currentDateStr_tripleOf] using hne3
  case h23 => simpa only [currentDateStr_tripleOf] using hne2

lemma processPair_networkError (cd : String) (mv : MovementType) (d : String) :
    processPair cd mv (.networkError d) =
      .error ⟨cd, mv.label, "Network error: " ++ d⟩ := rfl

lemma processPair_httpError (cd : String) (mv : MovementType) (s : Nat) (txt : String) :
    processPair cd mv (.httpError s txt) =
      .error ⟨cd, mv.label, "API error " ++ toString s ++ ": " ++ txt⟩ := rfl

lemma processPair_malformed (cd : String) (mv : MovementType) (d : String) :
    processPair cd mv (.malformedBody d) =
      .error ⟨cd, mv.label, "Unexpected error: " ++ d⟩ := rfl

lemma processPair_not_list (cd : String) (mv : MovementType) (body : Json)
    (h : ∀ l, body ≠ .arr l) :
    processPair cd mv (.success body) =
      .error ⟨cd, mv.label, "Unexpected response format"⟩ := by
  cases body with
  | arr items => exact absurd rfl (h items)
  | null => rfl
  | bool b => rfl
  | num n => rfl
  | str s => rfl
  | obj fields => rfl

lemma processPair_list_bad (cd : String) (mv : MovementType) (items : List Json)
    (dsc : String) (h : mapRecords items = .error dsc) :
    processPair cd mv (.success (.arr items)) =
      .error ⟨cd, mv.label, "Unexpected error: " ++ dsc⟩ := by
  simp only [processPair]
  rw [h]

lemma processPair_list_ok (cd : String) (mv : MovementType) (items : List Json)
    (fds : List FlightDetails) (h : mapRecords items = .ok fds) :
    processPair cd mv (.success (.arr items)) = .ok fds := by
  simp only [processPair]
  rw [h]

lemma fetchedFlights_of_error (cd : String) (mv : MovementType) (oc : FetchOutcome)
    (e : ApiError) (h : processPair cd mv oc = .error e) :
    fetchedFlights cd mv oc = [] := by
  unfold fetchedFlights
  rw [h]

lemma fetchedFlights_of_ok (cd : String) (mv : MovementType) (oc : FetchOutcome)
    (fds : List FlightDetails) (h : processPair cd mv oc = .ok fds) :
    fetchedFlights cd mv oc = fds := by
  unfold fetchedFlights
  rw [h]

lemma fetchedError_of_error (cd : String) (mv : MovementType) (oc : FetchOutcome)
    (e : ApiError) (h : processPair cd mv oc = .error e) :
    fetchedError cd mv oc = [e] := by
  unfold fetchedError
  rw [h]

lemma fetchedError_of_ok (cd : String) (mv : MovementType) (oc : FetchOutcome)
    (fds : List FlightDetails) (h : processPair cd mv oc = .ok fds) :
    fetchedError cd mv oc = [] := by
  unfold fetchedError
  rw [h]

lemma processPair_error_fields (cd : String) (mv : MovementType) (oc : FetchOutcome)
    (e : ApiError) (h : processPair cd mv oc = .error e) :
    e.date = cd ∧ e.movement = mv.label := by
  cases oc with
  | success body =>
    cases body with
    | arr items =>
      simp only [processPair] at h
      cases hm : mapRecords items with
      | ok fds => rw [hm] at h; cases h
      | error d => rw [hm] at h; injection h with h2; rw [← h2]; exact ⟨rfl, rfl⟩
    | null => injection h with h2; rw [← h2]; exact ⟨rfl, rfl⟩
    | bool b => injection h with h2; rw [← h2]; exact ⟨rfl, rfl⟩
    | num n => injection h with h2; rw [← h2]; exact ⟨rfl, rfl⟩
    | str s => injection h with h2; rw [← h2]; exact ⟨rfl, rfl⟩
    | obj fields => injection h with h2; rw [← h2]; exact ⟨rfl, rfl⟩
  | malformedBody d => injection h with h2; rw [← h2]; exact ⟨rfl, rfl⟩
  | httpError s txt => injection h with h2; rw [← h2]; exact ⟨rfl, rfl⟩
  | networkError d => injection h with h2; rw [← h2]; exact ⟨rfl, rfl⟩

lemma lookupDate_cons_eq (k : String) (df : DateFlights)
    (rest : List (String × DateFlights)) :
    lookupDate ((k, df) :: rest) k = some df := by
  simp [lookupDate]

lemma lookupDate_cons_ne (k2 k : String) (df : DateFlights)
    (rest : List (String × DateFlights)) (h : k2 ≠ k) :
    lookupDate ((k2, df) :: rest) k = lookupDate rest k := by
  simp [lookupDate, h]

lemma get_djerba_flights_eq (fetch : Fetch) (now : Date) :
    get_djerba_flights fetch now =
      if (aggregate fetch (chunk3 (get_dates now))).flights.isEmpty &&
          !(aggregate fetch (chunk3 (get_dates now))).errors.isEmpty then
        Response.internalError "Unable to fetch flights"
          (aggregate fetch (chunk3 (get_dates now))).errors
      else Response.ok (aggregate fetch (chunk3 (get_dates now))).flights := rfl

/-- C3: `get_djerba_flights` produces the aggregate 500 failure response —
message `"Unable to fetch flights"` with the collected error list — if and
only if the result mapping is empty and at least one error was recorded;
in every other case it returns the mapping as a success response. -/
theorem C3_failure_iff (fetch : Fetch) (now : Date) :
    (get_djerba_flights fetch now =
        Response.internalError "Unable to fetch flights"
          (aggregate fetch (chunk3 (get_dates now))).errors ↔
      (aggregate fetch (chunk3 (get_dates now))).flights = [] ∧
        (aggregate fetch (chunk3 (get_dates now))).errors ≠ []) ∧
    (¬((aggregate fetch (chunk3 (get_dates now))).flights = [] ∧
        (aggregate fetch (chunk3 (get_dates now))).errors ≠ []) →
      get_djerba_flights fetch now =
        Response.ok (aggregate fetch (chunk3 (get_dates now))).flights) := by
  rw [get_djerba_flights_eq]
  by_cases hE : (aggregate fetch (chunk3 (get_dates now))).flights = []
  · by_cases hR : (aggregate fetch (chunk3 (get_dates now))).errors = []
    · rw [if_neg (by simp [hE, hR])]
      constructor
      · constructor
        · intro h
          cases h
        · intro h
          exact absurd hR h.2
      · intro h
        rfl
    · rw [if_pos (by simp [hE, hR])]
      constructor
      · constructor
        · intro h
          exact ⟨hE, hR⟩
        · intro h
          rfl
      · intro h
        exact absurd ⟨hE, hR⟩ h
  · rw [if_neg (by simp [hE])]
    constructor
    · constructor
      · intro h
        cases h
      · intro h
        exact absurd h.1 hE
    · intro h
      rfl

/-- Witness for C3 at a concrete input: with every fetch failing at the
network level the mapping is still non-empty, so the endpoint answers with
the success branch. -/
theorem C3_failure_iff_witness :
    get_djerba_flights netFailOracle sampleNow =
      Response.ok (aggregate netFailOracle (chunk3 (get_dates sampleNow))).flights :=
  (C3_failure_iff netFailOracle sampleNow).2
    (by intro h; exact absurd h.1 (by decide))

/-- C4: whenever at least one date key exists in the result mapping, the
endpoint returns only the mapping, as a success response — it is never the
500 response, so the collected error list is dropped. -/
theorem C4_errors_dropped (fetch : Fetch) (now : Date)
    (h : (aggregate fetch (chunk3 (get_dates now))).flights ≠ []) :
    get_djerba_flights fetch now =
      Response.ok (aggregate fetch (chunk3 (get_dates now))).flights ∧
    ∀ (msg : String) (errs : List ApiError),
      get_djerba_flights fetch now ≠ Response.internalError msg errs := by
  have hok : get_djerba_flights fetch now =
      Response.ok (aggregate fetch (chunk3 (get_dates now))).flights := by
    rw [get_djerba_flights_eq]
    rw [if_neg (by simp [h])]
  refine ⟨hok, ?_⟩
  intro msg errs hcontra
  rw [hok] at hcontra
  cases hcontra

/-- Witness for C4 at a concrete input: one pair succeeds with one record,
the five other fetches fail, and the errors are still dropped. -/
theorem C4_errors_dropped_witness :
    get_djerba_flights partialOracle ⟨2024, 6, 15⟩ =
      Response.ok (aggregate partialOracle (chunk3 (get_dates ⟨2024, 6, 15⟩))).flights ∧
    (aggregate partialOracle (chunk3 (get_dates ⟨2024, 6, 15⟩))).errors.length = 5 :=
  ⟨(C4_errors_dropped partialOracle ⟨2024, 6, 15⟩ (by decide)).1, by decide⟩

/-- C1 (counterexample): on the oracle where all six upstream fetches fail
with network-level errors, the endpoint does not answer 500 as the claim
states: the three date keys were created eagerly before any fetch, so the
mapping is non-empty, the endpoint takes the success branch and returns
the three dates with empty sequences, while the six collected FetchErrors
are dropped. -/
theorem C1_counterexample :
    get_djerba_flights netFailOracle sampleNow =
      Response.ok
        [("14-06-2024", ⟨[], []⟩), ("15-06-2024", ⟨[], []⟩),
         ("16-06-2024", ⟨[], []⟩)] ∧
    (aggregate netFailOracle (chunk3 (get_dates sampleNow))).errors.length = 6 := by
  constructor
  · decide
  · decide

/-- C1 (amended): if all six upstream fetches fail with network-level
errors, the endpoint responds 200 with all three window dates mapped to
empty departures and arrivals; the six FetchErrors are computed but never
returned to the caller. -/
theorem C1_all_network_failures (fetch : Fetch) (now : Date) (hv : now.valid)
    (hr : now.inRange) (hf : ∀ t mv, ∃ d, fetch t mv = .networkError d) :
    get_djerba_flights fetch now =
      Response.ok
        [(fmtDate (prevDate now), ⟨[], []⟩), (fmtDate now, ⟨[], []⟩),
         (fmtDate (nextDate now), ⟨[], []⟩)] ∧
    (aggregate fetch (chunk3 (get_dates now))).errors.length = 6 := by
  have hw := aggregate_window fetch hv hr
  have hentry : ∀ t : DateTriple, entryFor fetch t = ⟨[], []⟩ := by
    intro t
    obtain ⟨d1, h1⟩ := hf t .departures
    obtain ⟨d2, h2⟩ := hf t .arrivals
    unfold entryFor
    rw [fetchedFlights_of_error _ _ _ _ (by rw [h1]; exact processPair_networkError _ _ _),
        fetchedFlights_of_error _ _ _ _ (by rw [h2]; exact processPair_networkError _ _ _)]
  have herr : ∀ t : DateTriple, (errsFor fetch t).length = 2 := by
    intro t
    obtain ⟨d1, h1⟩ := hf t .departures
    obtain ⟨d2, h2⟩ := hf t .arrivals
    unfold errsFor
    rw [fetchedError_of_error _ _ _ _ (by rw [h1]; exact processPair_networkError _ _ _),
        fetchedError_of_error _ _ _ _ (by rw [h2]; exact processPair_networkError _ _ _)]
    rfl
  constructor
  · rw [get_djerba_flights_eq, hw]
    rw [if_neg (by simp)]
    simp only [hentry]
  · rw [hw]
    simp [herr]

/-- Witness for C1 (amended) on the concrete all-network-failure oracle. -/
theorem C1_all_network_failures_witness :
    get_djerba_flights netFailOracle sampleNow =
      Response.ok
        [(fmtDate (prevDate sampleNow), ⟨[], []⟩), (fmtDate sampleNow, ⟨[], []⟩),
         (fmtDate (nextDate sampleNow), ⟨[], []⟩)] ∧
    (aggregate netFailOracle (chunk3 (get_dates sampleNow))).errors.length = 6 :=
  C1_all_network_failures netFailOracle sampleNow (by decide) (by decide)
    (fun t mv => ⟨"Connection refused", rfl⟩)

/-- Each window date's entry in the result mapping is exactly the data of
that date's own two fetches. -/
lemma lookup_window_entry (fetch : Fetch) (now : Date)
    (hv : now.valid) (hr : now.inRange) :
    ∀ d ∈ [prevDate now, now, nextDate now],
      lookupDate (aggregate fetch (chunk3 (get_dates now))).flights (fmtDate d) =
        some ⟨fetchedFlights (fmtDate d) .departures (fetch (tripleOf d) .departures),
              fetchedFlights (fmtDate d) .arrivals (fetch (tripleOf d) .arrivals)⟩ := by
  have hw := aggregate_window fetch hv hr
  obtain ⟨hne1, hne2, hne3⟩ := window_keys_distinct hv hr
  intro d hd
  rw [hw]
  simp only [List.mem_cons, List.not_mem_nil, or_false] at hd
  rcases hd with rfl | rfl | rfl
  · rw [lookupDate_cons_eq]
    rfl
  · rw [lookupDate_cons_ne _ _ _ _ hne1, lookupDate_cons_eq]
    rfl
  · rw [lookupDate_cons_ne _ _ _ _ hne3, lookupDate_cons_ne _ _ _ _ hne2,
      lookupDate_cons_eq]
    rfl

/-- C8: each window date's entry in the result mapping is exactly the data
of that date's own two fetches — its departures sequence comes only from
that date's departure fetch and its arrivals sequence only from that
date's arrival fetch, so no record is placed under another date or the
other bucket. -/
theorem C8_no_cross_contamination (fetch : Fetch) (now : Date)
    (hv : now.valid) (hr : now.inRange) :
    ∀ d ∈ [prevDate now, now, nextDate now],
      lookupDate (aggregate fetch (chunk3 (get_dates now))).flights (fmtDate d) =
        some ⟨fetchedFlights (fmtDate d) .departures (fetch (tripleOf d) .departures),
              fetchedFlights (fmtDate d) .arrivals (fetch (tripleOf d) .arrivals)⟩ :=
  lookup_window_entry fetch now hv hr

/-- Witness for C8 at a concrete input: today's entry on the
partial-success oracle holds exactly the mocked record in departures. -/
theorem C8_no_cross_contamination_witness :
    lookupDate (aggregate partialOracle (chunk3 (get_dates sampleNow))).flights
        (fmtDate sampleNow) =
      some ⟨fetchedFlights (fmtDate sampleNow) .departures
              (partialOracle (tripleOf sampleNow) .departures),
            fetchedFlights (fmtDate sampleNow) .arrivals
              (partialOracle (tripleOf sampleNow) .arrivals)⟩ :=
  C8_no_cross_contamination partialOracle sampleNow (by decide) (by decide)
    sampleNow (by simp)

lemma digit_isDigit : ∀ a : Nat, a < 10 → (digit a).isDigit = true := by
  decide

lemma dash_not_digit : ('-').isDigit = false := by decide

lemma fmtDate_shape (t : Date) :
    (fmtDate t).data =
      [digit (t.day / 10), digit (t.day % 10), '-',
       digit (t.month / 10), digit (t.month % 10), '-',
       digit (t.year / 1000), digit (t.year / 100 % 10),
       digit (t.year / 10 % 10), digit (t.year % 10)] := rfl

lemma fmtDate_format {t : Date} (hd : t.day < 100) (hm2 : t.month < 100)
    (hy : t.year < 10000) : isDDMMYYYY (fmtDate t) = true := by
  unfold isDDMMYYYY
  rw [fmtDate_shape]
  simp only [List.map, Bool.and_eq_true, decide_eq_true_eq]
  refine ⟨⟨?_, rfl⟩, rfl⟩
  rw [digit_isDigit _ (by omega), digit_isDigit _ (by omega),
      digit_isDigit _ (by omega), digit_isDigit _ (by omega),
      digit_isDigit _ (by omega), digit_isDigit _ (by omega),
      digit_isDigit _ (by omega), digit_isDigit _ (by omega), dash_not_digit]

lemma digit_toNat : ∀ a : Nat, a < 10 → (digit a).toNat = 48 + a := by
  decide

lemma fmt2_decode (n : Nat) (h : n < 100) : decodeDigits (fmt2 n) = n := by
  unfold decodeDigits fmt2
  simp only [List.foldl]
  rw [digit_toNat _ (by omega), digit_toNat _ (by omega)]
  omega

lemma fmt4_decode (n : Nat) (h : n < 10000) : decodeDigits (fmt4 n) = n := by
  unfold decodeDigits fmt4
  simp only [List.foldl]
  rw [digit_toNat _ (by omega), digit_toNat _ (by omega),
      digit_toNat _ (by omega), digit_toNat _ (by omega)]
  omega

/-- C2: for every combination of fetch outcomes, the result mapping has
exactly the three window keys, in order, pairwise distinct and each of
shape `DD-MM-YYYY`; and a date whose two movement fetches both fail still
has its entry, with empty departures and arrivals. -/
theorem C2_window_mapping (fetch : Fetch) (now : Date) (hv : now.valid)
    (hr : now.inRange) :
    ((aggregate fetch (chunk3 (get_dates now))).flights.map Prod.fst =
      [fmtDate (prevDate now), fmtDate now, fmtDate (nextDate now)]) ∧
    (fmtDate (prevDate now) ≠ fmtDate now ∧ fmtDate now ≠ fmtDate (nextDate now) ∧
      fmtDate (prevDate now) ≠ fmtDate (nextDate now)) ∧
    (∀ d ∈ [prevDate now, now, nextDate now], isDDMMYYYY (fmtDate d) = true) ∧
    (∀ d ∈ [prevDate now, now, nextDate now], ∀ e1 e2,
      processPair (fmtDate d) .departures (fetch (tripleOf d) .departures) = .error e1 →
      processPair (fmtDate d) .arrivals (fetch (tripleOf d) .arrivals) = .error e2 →
      lookupDate (aggregate fetch (chunk3 (get_dates now))).flights (fmtDate d) =
        some ⟨[], []⟩) := by
  have hw := aggregate_window fetch hv hr
  have hdis := window_keys_distinct hv hr
  have hy : 1 ≤ now.year := by
    obtain ⟨h1, h2⟩ := hr
    omega
  have hpv : (prevDate now).valid := prevDate_valid hv hy
  have hnv : (nextDate now).valid := nextDate_valid hv
  have hpy := prevDate_year_bound now
  have hny := nextDate_year_bound now
  obtain ⟨hr1, hr2⟩ := hr
  refine ⟨?_, hdis, ?_, ?_⟩
  · rw [hw]
    simp
  · intro d hd
    simp only [List.mem_cons, List.not_mem_nil, or_false] at hd
    rcases hd with rfl | rfl | rfl
    · exact fmtDate_format (valid_day_lt hpv) (valid_month_lt hpv) (by omega)
    · exact fmtDate_format (valid_day_lt hv) (valid_month_lt hv) (by omega)
    · exact fmtDate_format (valid_day_lt hnv) (valid_month_lt hnv) (by omega)
  · intro d hd e1 e2 h1 h2
    have hlk := lookup_window_entry fetch now hv ⟨hr1, hr2⟩ d hd
    rw [hlk, fetchedFlights_of_error _ _ _ _ h1, fetchedFlights_of_error _ _ _ _ h2]

/-- Witness for C2 at a concrete input: on the all-network-failure oracle
the three keys are present and today's entry exists with empty sequences. -/
theorem C2_window_mapping_witness :
    (aggregate netFailOracle (chunk3 (get_dates sampleNow))).flights.map Prod.fst =
      [fmtDate (prevDate sampleNow), fmtDate sampleNow, fmtDate (nextDate sampleNow)] ∧
    isDDMMYYYY (fmtDate sampleNow) = true ∧
    lookupDate (aggregate netFailOracle (chunk3 (get_dates sampleNow))).flights
        (fmtDate sampleNow) = some ⟨[], []⟩ := by
  have h := C2_window_mapping netFailOracle sampleNow (by decide) (by decide)
  exact ⟨h.1, h.2.2.1 sampleNow (by simp), h.2.2.2 sampleNow (by simp) _ _ rfl rfl⟩

/-- C5: for every valid in-range reference instant, `get_dates` returns
the nine `strftime` renderings of yesterday, today and tomorrow, in that
order; the three window dates are valid calendar dates, genuinely one day
before and one day after the reference (inverse to each other, so month
and year rollover are handled), pairwise distinct, and each component is
a zero-padded two-digit day, two-digit month and four-digit year string
that reads back to the original number. -/
theorem C5_get_dates (now : Date) (hv : now.valid) (hr : now.inRange) :
    get_dates now =
      [fmt2 (prevDate now).day, fmt2 (prevDate now).month, fmt4 (prevDate now).year,
       fmt2 now.day, fmt2 now.month, fmt4 now.year,
       fmt2 (nextDate now).day, fmt2 (nextDate now).month, fmt4 (nextDate now).year] ∧
    (prevDate now).valid ∧ (nextDate now).valid ∧
    nextDate (prevDate now) = now ∧ prevDate (nextDate now) = now ∧
    (prevDate now ≠ now ∧ now ≠ nextDate now ∧ prevDate now ≠ nextDate now) ∧
    (∀ d ∈ [prevDate now, now, nextDate now],
      (fmt2 d.day).length = 2 ∧ decodeDigits (fmt2 d.day) = d.day ∧
      (fmt2 d.month).length = 2 ∧ decodeDigits (fmt2 d.month) = d.month ∧
      (fmt4 d.year).length = 4 ∧ decodeDigits (fmt4 d.year) = d.year) := by
  have hy : 1 ≤ now.year := by
    obtain ⟨h1, h2⟩ := hr
    omega
  have hpv : (prevDate now).valid := prevDate_valid hv hy
  have hnv : (nextDate now).valid := nextDate_valid hv
  have hpy := prevDate_year_bound now
  have hny := nextDate_year_bound now
  obtain ⟨hr1, hr2⟩ := hr
  refine ⟨rfl, hpv, hnv, nextDate_prevDate hv hy, prevDate_nextDate hv,
    ⟨prevDate_ne hy, (nextDate_ne now).symm, prevDate_ne_nextDate hv hy⟩, ?_⟩
  intro d hd
  simp only [List.mem_cons, List.not_mem_nil, or_false] at hd
  rcases hd with rfl | rfl | rfl
  · exact ⟨rfl, fmt2_decode _ (valid_day_lt hpv), rfl,
      fmt2_decode _ (valid_month_lt hpv), rfl, fmt4_decode _ (by omega)⟩
  · exact ⟨rfl, fmt2_decode _ (valid_day_lt hv), rfl,
      fmt2_decode _ (valid_month_lt hv), rfl, fmt4_decode _ (by omega)⟩
  · exact ⟨rfl, fmt2_decode _ (valid_day_lt hnv), rfl,
      fmt2_decode _ (valid_month_lt hnv), rfl, fmt4_decode _ (by omega)⟩

/-- Witness for C5 at 1 January 2024, demonstrating the year rollover:
yesterday renders as 31-12-2023. -/
theorem C5_get_dates_witness :
    get_dates ⟨2024, 1, 1⟩ =
      ["31", "12", "2023", "01", "01", "2024", "02", "01", "2024"] ∧
    prevDate ⟨2024, 1, 1⟩ = ⟨2023, 12, 31⟩ ∧
    nextDate (prevDate ⟨2024, 1, 1⟩) = ⟨2024, 1, 1⟩ := by
  refine ⟨by decide, by decide, ?_⟩
  exact (C5_get_dates ⟨2024, 1, 1⟩ (by decide) (by decide)).2.2.2.1

/-- C6: a record whose five fields are present — `direction`, `heure`,
`compagnie`, `numVol` strings and `commentaire` a string or null — maps to
the `FlightDetails` with destination = direction, time = heure, company =
compagnie stripped of surrounding whitespace, fnumber = numVol and
comment = commentaire; a successfully mapped upstream list lands, in
order, in the matching date's bucket for the fetched movement; and the
whitespace normalisation turns `" TunisAir "` into `"TunisAir"`. -/
theorem C6_field_mapping :
    (∀ (j : Json) (a b c n : String) (cm : Option String),
      getItem j "direction" = .ok (.str a) →
      getItem j "heure" = .ok (.str b) →
      getItem j "compagnie" = .ok (.str c) →
      getItem j "numVol" = .ok (.str n) →
      getItem j "commentaire" = .ok (optJson cm) →
      mapRecord j = .ok ⟨a, b, strip c, n, cm⟩) ∧
    (∀ (fetch : Fetch) (now : Date), now.valid → now.inRange →
      ∀ d ∈ [prevDate now, now, nextDate now], ∀ mv items fds,
        fetch (tripleOf d) mv = .success (.arr items) →
        mapRecords items = .ok fds →
        lookupDate (aggregate fetch (chunk3 (get_dates now))).flights
            (fmtDate d) = some (entryFor fetch (tripleOf d)) ∧
          (entryFor fetch (tripleOf d)).bucket mv = fds) ∧
    strip " TunisAir " = "TunisAir" := by
  refine ⟨?_, ?_, by decide⟩
  · intro j a b c n cm h1 h2 h3 h4 h5
    cases cm with
    | none =>
      simp only [optJson] at h5
      simp only [mapRecord, h1, h2, h3, h4, h5, stripValue, asStr, asOptStr]
    | some s =>
      simp only [optJson] at h5
      simp only [mapRecord, h1, h2, h3, h4, h5, stripValue, asStr, asOptStr]
  · intro fetch now hv hr d hd mv items fds hs hm
    refine ⟨lookup_window_entry fetch now hv hr d hd, ?_⟩
    cases mv with
    | departures =>
      show fetchedFlights (fmtDate d) .departures (fetch (tripleOf d) .departures) = fds
      rw [hs]
      exact fetchedFlights_of_ok _ _ _ _ (processPair_list_ok _ _ _ _ hm)
    | arrivals =>
      show fetchedFlights (fmtDate d) .arrivals (fetch (tripleOf d) .arrivals) = fds
      rw [hs]
      exact fetchedFlights_of_ok _ _ _ _ (processPair_list_ok _ _ _ _ hm)

/-- Witness for C6: the specification's mocked single-record departures
response for the today date yields exactly one FlightDetails with the
mapped fields in that date's departures. -/
theorem C6_field_mapping_witness :
    mapRecord mockRec = .ok ⟨"TUN", "14:30", "Nouvelair", "BJ101", none⟩ ∧
    (lookupDate (aggregate partialOracle (chunk3 (get_dates sampleNow))).flights
        (fmtDate sampleNow) = some (entryFor partialOracle (tripleOf sampleNow)) ∧
      (entryFor partialOracle (tripleOf sampleNow)).bucket .departures =
        [⟨"TUN", "14:30", "Nouvelair", "BJ101", none⟩]) ∧
    strip " TunisAir " = "TunisAir" := by
  refine ⟨?_, ?_, C6_field_mapping.2.2⟩
  · exact C6_field_mapping.1 mockRec "TUN" "14:30" "Nouvelair" "BJ101" none
      rfl rfl rfl rfl rfl
  · exact C6_field_mapping.2.1 partialOracle sampleNow (by decide) (by decide)
      sampleNow (by simp) .departures [mockRec]
      [⟨"TUN", "14:30", "Nouvelair", "BJ101", none⟩] rfl rfl

lemma mem_errsFor (fetch : Fetch) (t : DateTriple) (mv : MovementType)
    (e : ApiError) (hpp : processPair (currentDateStr t) mv (fetch t mv) = .error e) :
    e ∈ errsFor fetch t := by
  unfold errsFor
  cases mv with
  | departures =>
    rw [fetchedError_of_error _ _ _ _ hpp]
    simp
  | arrivals =>
    rw [fetchedError_of_error _ _ _ _ hpp]
    simp

lemma error_mem_window (fetch : Fetch) (now : Date) (hv : now.valid)
    (hr : now.inRange) (d : Date) (hd : d ∈ [prevDate now, now, nextDate now])
    (mv : MovementType) (e : ApiError)
    (hpp : processPair (fmtDate d) mv (fetch (tripleOf d) mv) = .error e) :
    e ∈ (aggregate fetch (chunk3 (get_dates now))).errors := by
  have hw := aggregate_window fetch hv hr
  rw [hw]
  simp only [List.mem_append]
  simp only [List.mem_cons, List.not_mem_nil, or_false] at hd
  rcases hd with rfl | rfl | rfl
  · exact Or.inl (mem_errsFor fetch _ mv e hpp)
  · exact Or.inr (Or.inl (mem_errsFor fetch _ mv e hpp))
  · exact Or.inr (Or.inr (mem_errsFor fetch _ mv e hpp))

/-- C7 (counterexample): with a valid-JSON-object body for today's
departures, the sequence stays empty and exactly one FetchError for that
pair is recorded — but its message is `"Unexpected response format"`
(capital U, as written in the source), not the `"unexpected response
format"` the claim quotes. -/
theorem C7_counterexample :
    (aggregate objOracle (chunk3 (get_dates sampleNow))).errors =
      [⟨"15-06-2024", "departures", "Unexpected response format"⟩] ∧
    ("Unexpected response format" : String) ≠ "unexpected response format" ∧
    lookupDate (aggregate objOracle (chunk3 (get_dates sampleNow))).flights
      "15-06-2024" = some ⟨[], []⟩ := by
  refine ⟨by decide, by decide, by decide⟩

/-- C7 (amended): for every pair whose upstream body is valid JSON but not
a list, that date's bucket for that movement stays empty, a FetchError
with message `"Unexpected response format"` carrying that date and
movement is recorded, and processing continues — every window key is
still present in the result. -/
theorem C7_unexpected_format (fetch : Fetch) (now : Date) (hv : now.valid)
    (hr : now.inRange) :
    ∀ d ∈ [prevDate now, now, nextDate now], ∀ mv body,
      fetch (tripleOf d) mv = .success body → (∀ l, body ≠ .arr l) →
      (lookupDate (aggregate fetch (chunk3 (get_dates now))).flights
          (fmtDate d) = some (entryFor fetch (tripleOf d)) ∧
        (entryFor fetch (tripleOf d)).bucket mv = []) ∧
      (⟨fmtDate d, mv.label, "Unexpected response format"⟩ : ApiError) ∈
        (aggregate fetch (chunk3 (get_dates now))).errors ∧
      (aggregate fetch (chunk3 (get_dates now))).flights.map Prod.fst =
        [fmtDate (prevDate now), fmtDate now, fmtDate (nextDate now)] := by
  intro d hd mv body hs hnl
  have hpp : processPair (fmtDate d) mv (fetch (tripleOf d) mv) =
      .error ⟨fmtDate d, mv.label, "Unexpected response format"⟩ := by
    rw [hs]
    exact processPair_not_list _ _ _ hnl
  refine ⟨⟨lookup_window_entry fetch now hv hr d hd, ?_⟩,
    error_mem_window fetch now hv hr d hd mv _ hpp, ?_⟩
  · cases mv with
    | departures => exact fetchedFlights_of_error _ _ _ _ hpp
    | arrivals => exact fetchedFlights_of_error _ _ _ _ hpp
  · rw [aggregate_window fetch hv hr]
    simp

/-- Witness for C7 (amended) on the concrete object-body oracle. -/
theorem C7_unexpected_format_witness :
    lookupDate (aggregate objOracle (chunk3 (get_dates sampleNow))).flights
      "15-06-2024" = some ⟨[], []⟩ ∧
    (⟨"15-06-2024", "departures", "Unexpected response format"⟩ : ApiError) ∈
      (aggregate objOracle (chunk3 (get_dates sampleNow))).errors := by
  have h := C7_unexpected_format objOracle sampleNow (by decide) (by decide)
    sampleNow (by simp) .departures (.obj []) rfl (fun l hl => by cases hl)
  exact ⟨by decide, h.2.1⟩

lemma label_ne : ∀ mv mv2 : MovementType, mv ≠ mv2 → mv.label ≠ mv2.label := by
  intro mv mv2 h
  cases mv <;> cases mv2
  · exact absurd rfl h
  · decide
  · decide
  · exact absurd rfl h

lemma countP_fetchedError_self (cd : String) (mv : MovementType)
    (oc : FetchOutcome) (e : ApiError) (h : processPair cd mv oc = .error e) :
    (fetchedError cd mv oc).countP (errMatch cd mv.label) = 1 := by
  rw [fetchedError_of_error _ _ _ _ h]
  obtain ⟨h1, h2⟩ := processPair_error_fields _ _ _ _ h
  simp [List.countP_cons, errMatch, h1, h2]

lemma countP_fetchedError_zero_date (cd : String) (mv : MovementType)
    (oc : FetchOutcome) (cd2 lbl : String) (hne : cd ≠ cd2) :
    (fetchedError cd mv oc).countP (errMatch cd2 lbl) = 0 := by
  unfold fetchedError
  cases hpp : processPair cd mv oc with
  | ok fds => simp
  | error e =>
    obtain ⟨h1, h2⟩ := processPair_error_fields _ _ _ _ hpp
    simp [List.countP_cons, errMatch, h1, hne]

lemma countP_fetchedError_zero_mv (cd : String) (mv : MovementType)
    (oc : FetchOutcome) (lbl : String) (hne : mv.label ≠ lbl) :
    (fetchedError cd mv oc).countP (errMatch cd lbl) = 0 := by
  unfold fetchedError
  cases hpp : processPair cd mv oc with
  | ok fds => simp
  | error e =>
    obtain ⟨h1, h2⟩ := processPair_error_fields _ _ _ _ hpp
    simp [List.countP_cons, errMatch, h2, hne]

/-- Exactly one recorded error matches a failing pair's date and movement. -/
lemma countP_window (fetch : Fetch) (now : Date) (hv : now.valid)
    (hr : now.inRange) (d : Date) (hd : d ∈ [prevDate now, now, nextDate now])
    (mv : MovementType) (e : ApiError)
    (hpp : processPair (fmtDate d) mv (fetch (tripleOf d) mv) = .error e) :
    (aggregate fetch (chunk3 (get_dates now))).errors.countP
      (errMatch (fmtDate d) mv.label) = 1 := by
  have hw := aggregate_window fetch hv hr
  obtain ⟨hne1, hne2, hne3⟩ := window_keys_distinct hv hr
  rw [hw]
  simp only [List.mem_cons, List.not_mem_nil, or_false] at hd
  have hcd : ∀ t : Date, currentDateStr (tripleOf t) = fmtDate t := fun _ => rfl
  simp only [List.countP_append, errsFor, hcd]
  rcases hd with rfl | rfl | rfl <;> cases mv
  · rw [countP_fetchedError_self _ _ _ _ hpp,
      countP_fetchedError_zero_mv _ _ _ _ (label_ne _ _ (by decide)),
      countP_fetchedError_zero_date _ _ _ _ _ hne1.symm,
      countP_fetchedError_zero_date _ _ _ _ _ hne1.symm,
      countP_fetchedError_zero_date _ _ _ _ _ hne3.symm,
      countP_fetchedError_zero_date _ _ _ _ _ hne3.symm]
  · rw [countP_fetchedError_self _ _ _ _ hpp,
      countP_fetchedError_zero_mv _ _ _ _ (label_ne _ _ (by decide)),
      countP_fetchedError_zero_date _ _ _ _ _ hne1.symm,
      countP_fetchedError_zero_date _ _ _ _ _ hne1.symm,
      countP_fetchedError_zero_date _ _ _ _ _ hne3.symm,
      countP_fetchedError_zero_date _ _ _ _ _ hne3.symm]
  · rw [countP_fetchedError_self _ _ _ _ hpp,
      countP_fetchedError_zero_mv _ _ _ _ (label_ne _ _ (by decide)),
      countP_fetchedError_zero_date _ _ _ _ _ hne1,
      countP_fetchedError_zero_date _ _ _ _ _ hne1,
      countP_fetchedError_zero_date _ _ _ _ _ hne2.symm,
      countP_fetchedError_zero_date _ _ _ _ _ hne2.symm]
  · rw [countP_fetchedError_self _ _ _ _ hpp,
      countP_fetchedError_zero_mv _ _ _ _ (label_ne _ _ (by decide)),
      countP_fetchedError_zero_date _ _ _ _ _ hne1,
      countP_fetchedError_zero_date _ _ _ _ _ hne1,
      countP_fetchedError_zero_date _ _ _ _ _ hne2.symm,
      countP_fetchedError_zero_date _ _ _ _ _ hne2.symm]
  · rw [countP_fetchedError_self _ _ _ _ hpp,
      countP_fetchedError_zero_mv _ _ _ _ (label_ne _ _ (by decide)),
      countP_fetchedError_zero_date _ _ _ _ _ hne3,
      countP_fetchedError_zero_date _ _ _ _ _ hne3,
      countP_fetchedError_zero_date _ _ _ _ _ hne2,
      countP_fetchedError_zero_date _ _ _ _ _ hne2]
  · rw [countP_fetchedError_self _ _ _ _ hpp,
      countP_fetchedError_zero_mv _ _ _ _ (label_ne _ _ (by decide)),
      countP_fetchedError_zero_date _ _ _ _ _ hne3,
      countP_fetchedError_zero_date _ _ _ _ _ hne3,
      countP_fetchedError_zero_date _ _ _ _ _ hne2,
      countP_fetchedError_zero_date _ _ _ _ _ hne2]

/-- C9: every failure while processing one (date, movement) pair — an HTTP
error status (recorded with the status code and body text), a
network-level failure, or any other processing error — is caught and
recorded as exactly one FetchError for that pair; the error list is
exactly the in-order concatenation of the per-pair contributions and every
date's entry depends only on its own fetches, so no pair's failure alters
any other pair's results or aborts the batch. -/
theorem C9_per_pair_isolation (fetch : Fetch) (now : Date) (hv : now.valid)
    (hr : now.inRange) :
    ((aggregate fetch (chunk3 (get_dates now))).errors =
      errsFor fetch (tripleOf (prevDate now)) ++
        (errsFor fetch (tripleOf now) ++ errsFor fetch (tripleOf (nextDate now)))) ∧
    (∀ d ∈ [prevDate now, now, nextDate now],
      lookupDate (aggregate fetch (chunk3 (get_dates now))).flights (fmtDate d) =
        some (entryFor fetch (tripleOf d))) ∧
    (∀ (cd : String) (mv : MovementType) (s : Nat) (txt : String),
      processPair cd mv (.httpError s txt) =
        .error ⟨cd, mv.label, "API error " ++ toString s ++ ": " ++ txt⟩) ∧
    (∀ (cd : String) (mv : MovementType) (dsc : String),
      processPair cd mv (.networkError dsc) =
        .error ⟨cd, mv.label, "Network error: " ++ dsc⟩) ∧
    (∀ d ∈ [prevDate now, now, nextDate now], ∀ mv e,
      processPair (fmtDate d) mv (fetch (tripleOf d) mv) = .error e →
      e ∈ (aggregate fetch (chunk3 (get_dates now))).errors ∧
      (aggregate fetch (chunk3 (get_dates now))).errors.countP
        (errMatch (fmtDate d) mv.label) = 1) := by
  refine ⟨by rw [aggregate_window fetch hv hr], ?_,
    fun cd mv s txt => rfl, fun cd mv dsc => rfl, ?_⟩
  · intro d hd
    exact lookup_window_entry fetch now hv hr d hd
  · intro d hd mv e hpp
    exact ⟨error_mem_window fetch now hv hr d hd mv e hpp,
      countP_window fetch now hv hr d hd mv e hpp⟩

/-- Witness for C9 at a concrete input: on the all-network-failure oracle,
the failing pair (today, departures) contributes exactly one matching
FetchError, which is present in the collected list. -/
theorem C9_per_pair_isolation_witness :
    (⟨"15-06-2024", "departures", "Network error: Connection refused"⟩ : ApiError) ∈
      (aggregate netFailOracle (chunk3 (get_dates sampleNow))).errors ∧
    (aggregate netFailOracle (chunk3 (get_dates sampleNow))).errors.countP
      (errMatch "15-06-2024" "departures") = 1 := by
  have h := (C9_per_pair_isolation netFailOracle sampleNow (by decide)
    (by decide)).2.2.2.2 sampleNow (by simp) .departures
    ⟨fmtDate sampleNow, MovementType.departures.label,
      "Network error: Connection refused"⟩ rfl
  exact h

/-- C10: processing of one upstream list response is atomic — if mapping
any record of the list fails, no flight from that response is appended at
all (the date's bucket for that movement is empty, exactly as before the
pair was processed) and exactly one FetchError with an
`"Unexpected error"` description is recorded for that pair. -/
theorem C10_atomic_records (fetch : Fetch) (now : Date) (hv : now.valid)
    (hr : now.inRange) :
    ∀ d ∈ [prevDate now, now, nextDate now], ∀ mv items dsc,
      fetch (tripleOf d) mv = .success (.arr items) →
      mapRecords items = .error dsc →
      (lookupDate (aggregate fetch (chunk3 (get_dates now))).flights
          (fmtDate d) = some (entryFor fetch (tripleOf d)) ∧
        (entryFor fetch (tripleOf d)).bucket mv = []) ∧
      (⟨fmtDate d, mv.label, "Unexpected error: " ++ dsc⟩ : ApiError) ∈
        (aggregate fetch (chunk3 (get_dates now))).errors ∧
      (aggregate fetch (chunk3 (get_dates now))).errors.countP
        (errMatch (fmtDate d) mv.label) = 1 := by
  intro d hd mv items dsc hs hm
  have hpp : processPair (fmtDate d) mv (fetch (tripleOf d) mv) =
      .error ⟨fmtDate d, mv.label, "Unexpected error: " ++ dsc⟩ := by
    rw [hs]
    exact processPair_list_bad _ _ _ _ hm
  refine ⟨⟨lookup_window_entry fetch now hv hr d hd, ?_⟩,
    error_mem_window fetch now hv hr d hd mv _ hpp,
    countP_window fetch now hv hr d hd mv _ hpp⟩
  cases mv with
  | departures => exact fetchedFlights_of_error _ _ _ _ hpp
  | arrivals => exact fetchedFlights_of_error _ _ _ _ hpp

/-- Witness for C10 on the concrete missing-field oracle: the comprehension
aborts, nothing is appended, and one "Unexpected error" FetchError is
recorded for the pair. -/
theorem C10_atomic_records_witness :
    mapRecords [badRec] = .error "KeyError: direction" ∧
    lookupDate (aggregate badOracle (chunk3 (get_dates sampleNow))).flights
      "15-06-2024" = some ⟨[], []⟩ ∧
    (⟨"15-06-2024", "departures", "Unexpected error: KeyError: direction"⟩ : ApiError) ∈
      (aggregate badOracle (chunk3 (get_dates sampleNow))).errors ∧
    (aggregate badOracle (chunk3 (get_dates sampleNow))).errors.countP
      (errMatch "15-06-2024" "departures") = 1 := by
  have h := C10_atomic_records badOracle sampleNow (by decide) (by decide)
    sampleNow (by simp) .departures [badRec] "KeyError: direction" rfl rfl
  exact ⟨rfl, by decide, h.2.1, h.2.2⟩

end ApiFlights
